import Mathlib

/-!
Shallow embedding of `selfdrive/car/gm/interface.py` (opgm-openpilot, GM car
interface): the feed-forward steering models, the per-cycle button transition
classification with its resume-suppression rule, the threshold event
evaluation, and the relevant slice of the per-vehicle parameter construction.

Python floats are embedded as exact rationals (`ℚ`); the one place where a
non-numeric float (NaN) matters, the ego speed is embedded as `Option ℚ` with
`none` standing for NaN, and the strict-less comparison follows IEEE-754
semantics (every comparison against NaN is false).
-/

namespace GMInterface

/-- Modelled from the spec: `CruiseButtons` codes come from
`selfdrive/car/gm/values.py`, which is not under `src/`; the spec names an
initial (`INIT`) code, an unpress code, and the four mapped codes used by
`BUTTONS_DICT` in `interface.py`. The numeric values are the standard GM
cruise-button codes; only their distinctness matters to the claims. -/
def CruiseButtons.INIT : Nat := 0

/-- Modelled from the spec: the unpress code of `CruiseButtons` (see
`CruiseButtons.INIT`). -/
def CruiseButtons.UNPRESS : Nat := 1

/-- Modelled from the spec: the resume/accel code of `CruiseButtons`. -/
def CruiseButtons.RES_ACCEL : Nat := 2

/-- Modelled from the spec: the decel/set code of `CruiseButtons`. -/
def CruiseButtons.DECEL_SET : Nat := 3

/-- Modelled from the spec: the main-button code of `CruiseButtons`. -/
def CruiseButtons.MAIN : Nat := 5

/-- Modelled from the spec: the cancel code of `CruiseButtons`. -/
def CruiseButtons.CANCEL : Nat := 6

/-- The semantic button types used by `interface.py`
(`car.CarState.ButtonEvent.Type`): the four types appearing in
`BUTTONS_DICT` plus `unknown`. -/
inductive ButtonType where
  | accelCruise
  | decelCruise
  | altButton3
  | cancel
  | unknown
  deriving DecidableEq, Repr

/-- A button event: its semantic type and whether it is a press or a
release. -/
structure ButtonEvent where
  type : ButtonType
  pressed : Bool
  deriving DecidableEq, Repr

/-- `BUTTONS_DICT` of `interface.py` line 13, as a total lookup: the
`.get(but, ButtonType.unknown)` default of the consumer is folded in, so an
unmapped code yields `unknown`. -/
def BUTTONS_DICT (b : Nat) : ButtonType :=
  if b = CruiseButtons.RES_ACCEL then .accelCruise
  else if b = CruiseButtons.DECEL_SET then .decelCruise
  else if b = CruiseButtons.MAIN then .altButton3
  else if b = CruiseButtons.CANCEL then .cancel
  else .unknown

/-- Modelled from the spec: `create_button_event` lives in `selfdrive/car`
(not under `src/`). Per the spec, the transition pair is classified against
the static mapping; the unpress code maps to release semantics (the previous
code is classified, `pressed = false`), any other current code to press
semantics; a code not in the mapping yields an `unknown`-typed event. -/
def create_button_event (cur_but prev_but : Nat) : ButtonEvent :=
  if cur_but ≠ CruiseButtons.UNPRESS then
    { type := BUTTONS_DICT cur_but, pressed := true }
  else
    { type := BUTTONS_DICT prev_but, pressed := false }

/-- The button-event block of `CarInterface._update` (`interface.py` lines
367-374): when the current button code differs from the previous one and the
previous one is not `INIT`, classify the transition; if the classified type
is `accelCruise` while cruise is enabled and the car stands still, override
the type to `unknown`; the (single) event becomes the cycle's button-event
list, otherwise the list is empty. -/
def update_button_events (prev_cruise_buttons cruise_buttons : Nat)
    (cruiseEnabled standstill : Bool) : List ButtonEvent :=
  if cruise_buttons ≠ prev_cruise_buttons ∧ prev_cruise_buttons ≠ CruiseButtons.INIT then
    let be := create_button_event cruise_buttons prev_cruise_buttons
    let ty := if be.type = .accelCruise ∧ cruiseEnabled ∧ standstill then
                ButtonType.unknown
              else be.type
    [{ be with type := ty }]
  else []

/-- The event names emitted by the embedded slice of `_update`: the three
threshold events and the two button-derived enable events. -/
inductive EventName where
  | belowEngageSpeed
  | resumeRequired
  | belowSteerSpeed
  | buttonEnable
  | buttonCancel
  deriving DecidableEq, Repr

/-- A Python float restricted to what `_update` needs: an exact rational or
NaN (`none`). No arithmetic is performed on the ego speed in `_update`, only
comparisons, so this embedding is exact. -/
def FloatQ : Type := Option ℚ

/-- IEEE-754 strict-less against a rational threshold: a NaN compares false. -/
def fltLt (a : FloatQ) (b : ℚ) : Bool :=
  match a with
  | none => false
  | some q => decide (q < b)

/-- The three threshold checks of `CarInterface._update` (`interface.py`
lines 401-406), in source order: below engage speed, resume required, below
steer speed, each appended to the cycle's event list when its condition
holds. -/
def threshold_events (vEgo : FloatQ) (cruiseStandstill : Bool)
    (minEnableSpeed minSteerSpeed : ℚ) : List EventName :=
  (if fltLt vEgo minEnableSpeed then [.belowEngageSpeed] else []) ++
  (if cruiseStandstill then [.resumeRequired] else []) ++
  (if fltLt vEgo minSteerSpeed then [.belowSteerSpeed] else [])

/-- Modelled from the spec: `create_button_enable_events` lives in
`selfdrive/car` (not under `src/`). It derives engage/disengage events from
the cycle's button events: a release of an accel- or decel-cruise button
yields `buttonEnable` (unless the stock cruise state machine is in charge),
a press of cancel yields `buttonCancel`. -/
def create_button_enable_events (buttonEvents : List ButtonEvent)
    (pcm_cruise : Bool) : List EventName :=
  buttonEvents.flatMap fun b =>
    (if (b.type = .accelCruise ∨ b.type = .decelCruise) ∧ b.pressed = false ∧
        pcm_cruise = false then [.buttonEnable] else []) ++
    (if b.type = .cancel ∧ b.pressed = true then [.buttonCancel] else [])

/-- The event assembly of `CarInterface._update` (`interface.py` lines
398-411): start from the common events (computed by the out-of-scope
`create_common_events`, taken here as an opaque input list), append the three
threshold events in source order, then extend with the button-derived enable
events. -/
def update_events (commonEvents : List EventName) (vEgo : FloatQ)
    (cruiseStandstill : Bool) (minEnableSpeed minSteerSpeed : ℚ)
    (buttonEvents : List ButtonEvent) (pcmCruise : Bool) : List EventName :=
  let events := commonEvents
  let events := events ++ (if fltLt vEgo minEnableSpeed then [.belowEngageSpeed] else [])
  let events := events ++ (if cruiseStandstill then [.resumeRequired] else [])
  let events := events ++ (if fltLt vEgo minSteerSpeed then [.belowSteerSpeed] else [])
  events ++ create_button_enable_events buttonEvents pcmCruise

/-- `CarInterface.get_steer_feedforward_volt` (`interface.py` lines 24-28). -/
def get_steer_feedforward_volt (desired_angle v_ego : ℚ) : ℚ :=
  let d := desired_angle * 0.02904609
  let sigmoid := d / (1 + |d|)
  0.10006696 * sigmoid * (v_ego + 3.12485927)

/-- `CarInterface.get_steer_feedforward_acadia` (`interface.py` lines 30-34). -/
def get_steer_feedforward_acadia (desired_angle v_ego : ℚ) : ℚ :=
  let d := desired_angle * 0.09760208
  let sigmoid := d / (1 + |d|)
  0.04689655 * sigmoid * (v_ego + 10.028217)

/-- The vehicle identifiers referenced by `interface.py` (the `CAR` enum of
`selfdrive/car/gm/values.py`; the constructor list is exactly the candidates
`interface.py` compares against). -/
inductive CAR where
  | VOLT
  | VOLT_NR
  | MALIBU
  | MALIBU_NR
  | HOLDEN_ASTRA
  | ACADIA
  | ACADIA_NR
  | BUICK_REGAL
  | CADILLAC_ATS
  | ESCALADE_ESV
  | BOLT_NR
  | EQUINOX_NR
  | TAHOE_NR
  | SILVERADO_NR
  | SUBURBAN
  | BOLT_EUV
  deriving DecidableEq, Repr

/-- The three outcomes of `CarInterface.get_steer_feedforward_function`: the
Volt model, the Acadia model, or the default model of the base interface. -/
inductive FeedforwardModel where
  | volt
  | acadia
  | default
  deriving DecidableEq, Repr

/-- `CarInterface.get_steer_feedforward_function` (`interface.py` lines
36-42): an exact-identifier comparison chain selecting the model. -/
def get_steer_feedforward_function (carFingerprint : CAR) : FeedforwardModel :=
  if carFingerprint = .VOLT then .volt
  else if carFingerprint = .ACADIA then .acadia
  else .default

/-- Modelled from the spec: `Conversions.MPH_TO_MS` comes from
`common/conversions.py`, which is not under `src/`: the standard
mile-per-hour to metre-per-second factor, `1.609344 / 3.6 = 0.44704`. -/
def MPH_TO_MS : ℚ := 1.609344 / 3.6

/-- The lateral tuning slice of the parameter set: either the PID tuning or
the torque tuning (`ret.lateralTuning.init('torque')`), each carrying the
feed-forward gain `kf` that `get_params` assigns. -/
inductive LateralTuning where
  | pid (kf : ℚ)
  | torque (kf : ℚ)
  deriving DecidableEq, Repr

/-- The fields of the parameter set that the per-cycle event logic and the
feed-forward selection consult: `minEnableSpeed`, `minSteerSpeed` and the
lateral tuning gain. The many physical constants `get_params` also fills in
(mass, wheelbase, steer ratio, ...) are not consulted by the verified slice
and are not carried. -/
structure Params where
  minEnableSpeed : ℚ
  minSteerSpeed : ℚ
  lateralTuning : LateralTuning
  deriving DecidableEq, Repr

/-- The threshold/tuning slice of `CarInterface.get_params` (`interface.py`
lines 44-359): the baseline sets `minSteerSpeed = 7 mph`,
`lateralTuning.pid.kf = 0.00004` and `minEnableSpeed = 18 mph`; each
candidate branch then overrides exactly the fields the source overrides. -/
def get_params (candidate : CAR) : Params :=
  let base : Params :=
    { minEnableSpeed := 18 * MPH_TO_MS
      minSteerSpeed := 7 * MPH_TO_MS
      lateralTuning := .pid 0.00004 }
  if candidate = .VOLT ∨ candidate = .VOLT_NR then
    { base with lateralTuning := .pid 1 }
  else if candidate = .MALIBU ∨ candidate = .MALIBU_NR then
    base
  else if candidate = .HOLDEN_ASTRA then
    base
  else if candidate = .ACADIA ∨ candidate = .ACADIA_NR then
    { base with minEnableSpeed := -1, lateralTuning := .pid 1 }
  else if candidate = .BUICK_REGAL then
    base
  else if candidate = .CADILLAC_ATS then
    base
  else if candidate = .ESCALADE_ESV then
    { base with minEnableSpeed := -1, lateralTuning := .pid 0.000045 }
  else if candidate = .BOLT_NR then
    { base with minEnableSpeed := -1, minSteerSpeed := 5 * MPH_TO_MS,
                lateralTuning := .pid 0.0002 }
  else if candidate = .EQUINOX_NR then
    { base with minEnableSpeed := 18 * MPH_TO_MS }
  else if candidate = .TAHOE_NR then
    { base with minEnableSpeed := -1, minSteerSpeed := -1 * MPH_TO_MS,
                lateralTuning := .torque (1.0 / 2.5) }
  else if candidate = .SILVERADO_NR then
    { base with minEnableSpeed := -1, minSteerSpeed := -1 * MPH_TO_MS,
                lateralTuning := .torque (1.0 / 2.5) }
  else if candidate = .SUBURBAN then
    { base with minEnableSpeed := -1, minSteerSpeed := -1 * MPH_TO_MS,
                lateralTuning := .torque (1.0 / 2.0) }
  else if candidate = .BOLT_EUV then
    { base with minEnableSpeed := -1, minSteerSpeed := 5 * MPH_TO_MS,
                lateralTuning := .pid 0.0002 }
  else
    base

/-! ### Shared helper lemmas -/

theorem fltLt_some (q b : ℚ) : fltLt (some q) b = true ↔ q < b := by
  simp [fltLt]

theorem engage_mem_threshold_events (vEgo : FloatQ) (s : Bool) (me ms : ℚ) :
    EventName.belowEngageSpeed ∈ threshold_events vEgo s me ms ↔
      fltLt vEgo me = true := by
  unfold threshold_events
  cases h1 : fltLt vEgo me <;> cases s <;> cases h2 : fltLt vEgo ms <;> simp

theorem resume_mem_threshold_events (vEgo : FloatQ) (s : Bool) (me ms : ℚ) :
    EventName.resumeRequired ∈ threshold_events vEgo s me ms ↔ s = true := by
  unfold threshold_events
  cases h1 : fltLt vEgo me <;> cases s <;> cases h2 : fltLt vEgo ms <;> simp

theorem steer_mem_threshold_events (vEgo : FloatQ) (s : Bool) (me ms : ℚ) :
    EventName.belowSteerSpeed ∈ threshold_events vEgo s me ms ↔
      fltLt vEgo ms = true := by
  unfold threshold_events
  cases h1 : fltLt vEgo me <;> cases s <;> cases h2 : fltLt vEgo ms <;> simp

theorem mem_threshold_events_kind (vEgo : FloatQ) (s : Bool) (me ms : ℚ)
    (x : EventName) (hx : x ∈ threshold_events vEgo s me ms) :
    x = .belowEngageSpeed ∨ x = .resumeRequired ∨ x = .belowSteerSpeed := by
  unfold threshold_events at hx
  cases h1 : fltLt vEgo me <;> cases s <;> cases h2 : fltLt vEgo ms <;>
    simp [h1, h2] at hx <;> tauto

theorem mem_button_enable_events_kind (bes : List ButtonEvent) (pcm : Bool)
    (x : EventName) (hx : x ∈ create_button_enable_events bes pcm) :
    x = .buttonEnable ∨ x = .buttonCancel := by
  induction bes with
  | nil => simp [create_button_enable_events] at hx
  | cons b bs ih =>
    simp only [create_button_enable_events, List.flatMap_cons, List.mem_append] at hx
    rcases hx with hx | hx
    · rcases hx with hx | hx <;>
        · split at hx <;> simp_all
    · exact ih hx

theorem update_events_decomp (common : List EventName) (vEgo : FloatQ)
    (s : Bool) (me ms : ℚ) (bes : List ButtonEvent) (pcm : Bool) :
    update_events common vEgo s me ms bes pcm =
      common ++ threshold_events vEgo s me ms ++
        create_button_enable_events bes pcm := by
  simp [update_events, threshold_events, List.append_assoc]

theorem update_button_events_pos (prev cur : Nat) (e s : Bool)
    (hne : cur ≠ prev) (hinit : prev ≠ CruiseButtons.INIT) :
    update_button_events prev cur e s =
      [{ create_button_event cur prev with
         type := if (create_button_event cur prev).type = .accelCruise ∧
                    e ∧ s then .unknown
                 else (create_button_event cur prev).type }] := by
  simp [update_button_events, hne, hinit]

/-! ### Claim theorems -/

/-- C1: in the per-cycle update, when a button event is emitted (codes
differ, previous code not INIT), if the classified type is accelerate-cruise
while cruise is enabled and the vehicle is at standstill, the emitted event's
type is overridden to `unknown`; in every other combination the classified
type passes through unchanged. -/
theorem resume_suppression (prev cur : Nat) (e s : Bool)
    (hne : cur ≠ prev) (hinit : prev ≠ CruiseButtons.INIT) :
    ((create_button_event cur prev).type = .accelCruise ∧ e = true ∧ s = true →
      update_button_events prev cur e s =
        [{ create_button_event cur prev with type := .unknown }]) ∧
    (¬((create_button_event cur prev).type = .accelCruise ∧ e = true ∧ s = true) →
      update_button_events prev cur e s = [create_button_event cur prev]) := by
  rw [update_button_events_pos prev cur e s hne hinit]
  constructor
  · intro h
    simp [h.1, h.2.1, h.2.2]
  · intro h
    rw [if_neg]
    simpa using h

/-- Witness for C1 at prev = DECEL_SET, cur = RES_ACCEL: with cruise enabled
and standstill the emitted type is unknown; with cruise not enabled the
classified accelCruise type passes through. -/
theorem resume_suppression_witness :
    update_button_events CruiseButtons.DECEL_SET CruiseButtons.RES_ACCEL true true =
      [{ type := ButtonType.unknown, pressed := true }] ∧
    update_button_events CruiseButtons.DECEL_SET CruiseButtons.RES_ACCEL false true =
      [{ type := ButtonType.accelCruise, pressed := true }] :=
  ⟨(resume_suppression CruiseButtons.DECEL_SET CruiseButtons.RES_ACCEL true true
      (by decide) (by decide)).1 (by decide),
   (resume_suppression CruiseButtons.DECEL_SET CruiseButtons.RES_ACCEL false true
      (by decide) (by decide)).2 (by decide)⟩

/-- C2: the button transition classifier emits nothing when the previous
code equals the current one, emits nothing when the previous code is INIT,
and emits exactly one event only when the codes differ and the previous code
is not INIT. -/
theorem button_debounce (prev cur : Nat) (e s : Bool) :
    (prev = cur → update_button_events prev cur e s = []) ∧
    (prev = CruiseButtons.INIT → update_button_events prev cur e s = []) ∧
    (update_button_events prev cur e s ≠ [] →
      prev ≠ cur ∧ prev ≠ CruiseButtons.INIT ∧
      ∃ be, update_button_events prev cur e s = [be]) := by
  refine ⟨?_, ?_, ?_⟩
  · intro h; subst h; simp [update_button_events]
  · intro h; subst h; simp [update_button_events]
  · intro h
    by_cases h1 : cur ≠ prev ∧ prev ≠ CruiseButtons.INIT
    · exact ⟨fun hh => h1.1 hh.symm, h1.2, _,
        update_button_events_pos prev cur e s h1.1 h1.2⟩
    · exact absurd (by simp [update_button_events, h1]) h

/-- Witness for C2: equal codes emit nothing, INIT previous code emits
nothing, and distinct non-INIT codes emit exactly one event. -/
theorem button_debounce_witness :
    update_button_events 5 5 true true = [] ∧
    update_button_events CruiseButtons.INIT 6 true true = [] ∧
    ((6 : Nat) ≠ 5 ∧ (6 : Nat) ≠ CruiseButtons.INIT ∧
      ∃ be, update_button_events 6 5 true true = [be]) :=
  ⟨(button_debounce 5 5 true true).1 rfl,
   (button_debounce CruiseButtons.INIT 6 true true).2.1 rfl,
   (button_debounce 6 5 true true).2.2 (by decide)⟩

/-- C3: the threshold evaluation emits belowEngageSpeed exactly when the ego
speed is strictly below minEnableSpeed, resumeRequired exactly when the
cruise-standstill flag is set, belowSteerSpeed exactly when the ego speed is
strictly below minSteerSpeed; the rules are independent and the list is
assembled in the fixed order 1, 2, 3 from the current sample and the static
parameters alone. -/
theorem threshold_rules (q : ℚ) (s : Bool) (me ms : ℚ) :
    (EventName.belowEngageSpeed ∈ threshold_events (some q) s me ms ↔ q < me) ∧
    (EventName.resumeRequired ∈ threshold_events (some q) s me ms ↔ s = true) ∧
    (EventName.belowSteerSpeed ∈ threshold_events (some q) s me ms ↔ q < ms) ∧
    threshold_events (some q) s me ms =
      (if q < me then [EventName.belowEngageSpeed] else []) ++
      (if s = true then [EventName.resumeRequired] else []) ++
      (if q < ms then [EventName.belowSteerSpeed] else []) := by
  refine ⟨?_, resume_mem_threshold_events _ _ _ _, ?_, ?_⟩
  · rw [engage_mem_threshold_events, fltLt_some]
  · rw [steer_mem_threshold_events, fltLt_some]
  · simp [threshold_events, fltLt]

/-- C4 counterexample: at a concrete cycle whose thresholds yield
belowEngageSpeed and whose button events yield buttonEnable, the assembled
event list is threshold-first, not button-first: it differs from the
button-events-then-threshold-events concatenation the claim describes. -/
theorem button_events_not_first :
    update_events [] (some 0) false 1 (-1)
        [{ type := .decelCruise, pressed := false }] false =
      [.belowEngageSpeed, .buttonEnable] ∧
    update_events [] (some 0) false 1 (-1)
        [{ type := .decelCruise, pressed := false }] false ≠
      create_button_enable_events [{ type := .decelCruise, pressed := false }] false ++
        threshold_events (some 0) false 1 (-1) := by
  constructor <;> decide

/-- C4 amended: in every cycle's event list, the button-derived events come
after the threshold events: no button-derived event (buttonEnable or
buttonCancel) ever precedes a threshold event (belowEngageSpeed,
resumeRequired or belowSteerSpeed), as long as the common events contributed
by the out-of-scope aggregator contain no button-derived event name. -/
theorem threshold_before_button (common : List EventName) (vEgo : FloatQ)
    (s : Bool) (me ms : ℚ) (bes : List ButtonEvent) (pcm : Bool)
    (b t : EventName)
    (hb : b = .buttonEnable ∨ b = .buttonCancel)
    (ht : t = .belowEngageSpeed ∨ t = .resumeRequired ∨ t = .belowSteerSpeed)
    (hcommon : EventName.buttonEnable ∉ common ∧ EventName.buttonCancel ∉ common) :
    ¬ List.Sublist [b, t] (update_events common vEgo s me ms bes pcm) := by
  intro hsub
  rw [update_events_decomp] at hsub
  rw [List.sublist_append_iff] at hsub
  obtain ⟨l1, l2, heq, h1, h2⟩ := hsub
  cases l1 with
  | nil =>
    have hl2 : l2 = [b, t] := by simpa using heq.symm
    subst hl2
    have ht2 : t ∈ create_button_enable_events bes pcm :=
      h2.subset (by simp)
    rcases mem_button_enable_events_kind bes pcm t ht2 with h | h <;>
      rcases ht with ht | ht | ht <;> simp_all
  | cons b' l1' =>
    rw [List.cons_append] at heq
    injection heq with hb' _
    subst hb'
    have hbmem : b ∈ common ++ threshold_events vEgo s me ms :=
      h1.subset (List.mem_cons_self b l1')
    rcases List.mem_append.mp hbmem with hc | hT
    · rcases hb with hb | hb <;> subst hb <;> simp_all
    · rcases mem_threshold_events_kind vEgo s me ms b hT with h | h | h <;>
        rcases hb with hb | hb <;> simp_all

/-- Witness for C4's amended theorem at the counterexample cycle: the
button-enable event does not precede the below-engage-speed event. -/
theorem threshold_before_button_witness :
    ¬ List.Sublist [EventName.buttonEnable, EventName.belowEngageSpeed]
        (update_events [] (some 0) false 1 (-1)
          [{ type := .decelCruise, pressed := false }] false) :=
  threshold_before_button [] (some 0) false 1 (-1)
    [{ type := .decelCruise, pressed := false }] false
    EventName.buttonEnable EventName.belowEngageSpeed
    (Or.inl rfl) (Or.inl rfl) (by decide)

/-- C5: the Volt feed-forward model computes exactly
`0.10006696 * s * (v + 3.12485927)` with
`s = (0.02904609*x) / (1 + |0.02904609*x|)`; at `x = 10`, `v = 20` it
returns exactly the spec's regression expression, whose value agrees with
`0.520850` to six decimal places. The embedded function is a pure function
of its two arguments. -/
theorem volt_feedforward_formula :
    (∀ x v : ℚ, get_steer_feedforward_volt x v =
        0.10006696 * ((0.02904609 * x) / (1 + |0.02904609 * x|)) *
          (v + 3.12485927)) ∧
    get_steer_feedforward_volt 10 20 =
      0.10006696 * ((10 * 0.02904609) / (1 + 10 * 0.02904609)) * 23.12485927 ∧
    |get_steer_feedforward_volt 10 20 - 0.520850| < 0.000001 := by
  have habs : |(10 : ℚ) * 0.02904609| = 10 * 0.02904609 :=
    abs_of_pos (by norm_num)
  refine ⟨?_, ?_, ?_⟩
  · intro x v
    unfold get_steer_feedforward_volt
    rw [mul_comm x 0.02904609]
  · simp only [get_steer_feedforward_volt]
    rw [habs]
    norm_num
  · simp only [get_steer_feedforward_volt]
    rw [habs, abs_sub_lt_iff]
    constructor <;> norm_num

/-- C6: the feed-forward selection returns the Volt model for VOLT, the
Acadia model for ACADIA, and the base-interface default for every other
identifier; being a total function of the identifier it never fails. -/
theorem feedforward_selection (c : CAR) :
    get_steer_feedforward_function .VOLT = .volt ∧
    get_steer_feedforward_function .ACADIA = .acadia ∧
    (c ≠ .VOLT → c ≠ .ACADIA → get_steer_feedforward_function c = .default) := by
  refine ⟨rfl, rfl, ?_⟩
  intro h1 h2
  simp [get_steer_feedforward_function, h1, h2]

/-- Witness for C6 at the MALIBU identifier: neither VOLT nor ACADIA, so the
selection yields the default model. -/
theorem feedforward_selection_witness :
    get_steer_feedforward_function .MALIBU = .default :=
  (feedforward_selection .MALIBU).2.2 (by decide) (by decide)

/-- C7: both family-specific feed-forward models are odd functions of the
desired angle at every fixed speed. -/
theorem feedforward_odd (x v : ℚ) :
    get_steer_feedforward_volt x v = -(get_steer_feedforward_volt (-x) v) ∧
    get_steer_feedforward_acadia x v = -(get_steer_feedforward_acadia (-x) v) := by
  constructor <;>
    simp [get_steer_feedforward_volt, get_steer_feedforward_acadia,
      neg_mul, abs_neg, neg_div, mul_neg]

/-- C8: with a NaN ego speed both strict-less threshold comparisons are
false, so the cycle's threshold evaluation emits neither belowEngageSpeed
nor belowSteerSpeed and still returns normally (the resume rule, which does
not consult the speed, is unaffected); the evaluator is a total function of
its inputs. -/
theorem nan_speed_fail_open (s : Bool) (me ms : ℚ) :
    threshold_events none s me ms =
      (if s = true then [EventName.resumeRequired] else []) ∧
    EventName.belowEngageSpeed ∉ threshold_events none s me ms ∧
    EventName.belowSteerSpeed ∉ threshold_events none s me ms := by
    refine ⟨?_, ?_, ?_⟩ <;> cases s <;> simp [threshold_events, fltLt]

/-- C9: the VOLT_NR and ACADIA_NR identifiers select the default
feed-forward model even though their parameter construction sets the pid
feed-forward gain kf to 1.0 as for the family-specific models; only the
exact VOLT and ACADIA identifiers select the family-specific models. -/
theorem nr_variants_default_feedforward :
    get_steer_feedforward_function .VOLT_NR = .default ∧
    get_steer_feedforward_function .ACADIA_NR = .default ∧
    (get_params .VOLT_NR).lateralTuning = .pid 1 ∧
    (get_params .ACADIA_NR).lateralTuning = .pid 1 ∧
    (∀ c : CAR, get_steer_feedforward_function c = .volt ↔ c = .VOLT) ∧
    (∀ c : CAR, get_steer_feedforward_function c = .acadia ↔ c = .ACADIA) := by
  refine ⟨rfl, rfl, by decide, by decide, ?_, ?_⟩ <;>
    intro c <;> cases c <;> simp [get_steer_feedforward_function]

/-- C10: TAHOE_NR, SILVERADO_NR and SUBURBAN get
`minSteerSpeed = -1 mph < 0`, so at any non-negative ego speed the
belowSteerSpeed event is never emitted; likewise any identifier whose
parameters set `minEnableSpeed = -1` never emits belowEngageSpeed at a
non-negative ego speed. -/
theorem negative_thresholds_never_fire
    (c : CAR) (q : ℚ) (s : Bool) (me ms : ℚ) (hq : 0 ≤ q) :
    ((get_params .TAHOE_NR).minSteerSpeed = -1 * MPH_TO_MS ∧
     (get_params .SILVERADO_NR).minSteerSpeed = -1 * MPH_TO_MS ∧
     (get_params .SUBURBAN).minSteerSpeed = -1 * MPH_TO_MS ∧
     (get_params .TAHOE_NR).minSteerSpeed < 0 ∧
     (get_params .SILVERADO_NR).minSteerSpeed < 0 ∧
     (get_params .SUBURBAN).minSteerSpeed < 0) ∧
    ((get_params c).minSteerSpeed < 0 →
      EventName.belowSteerSpeed ∉
        threshold_events (some q) s me (get_params c).minSteerSpeed) ∧
    ((get_params c).minEnableSpeed = -1 →
      EventName.belowEngageSpeed ∉
        threshold_events (some q) s (get_params c).minEnableSpeed ms) := by
  refine ⟨by simp [get_params, MPH_TO_MS]; norm_num, ?_, ?_⟩
  · intro hneg hmem
    have h := (steer_mem_threshold_events _ _ _ _).mp hmem
    rw [fltLt_some] at h
    linarith
  · intro hen hmem
    have h := (engage_mem_threshold_events _ _ _ _).mp hmem
    rw [fltLt_some, hen] at h
    linarith

/-- Witness for C10 at TAHOE_NR (negative steer threshold) and SUBURBAN
(engage threshold -1), both at ego speed 0. -/
theorem negative_thresholds_never_fire_witness :
    EventName.belowSteerSpeed ∉
      threshold_events (some 0) false 5 (get_params .TAHOE_NR).minSteerSpeed ∧
    EventName.belowEngageSpeed ∉
      threshold_events (some 0) false (get_params .SUBURBAN).minEnableSpeed 5 :=
  ⟨(negative_thresholds_never_fire .TAHOE_NR 0 false 5 5 le_rfl).2.1
      (by simp [get_params, MPH_TO_MS]; norm_num),
   (negative_thresholds_never_fire .SUBURBAN 0 false 5 5 le_rfl).2.2
      (by simp [get_params])⟩

end GMInterface
